import Mathlib

/-
Verification of the native-library load hook in
src/android/src/main/cpp/cpp-adapter.cpp:

  JNIEXPORT jint JNICALL JNI_OnLoad(JavaVM *vm, void *)
  {
    return facebook::jni::initialize(vm, [=]
                                     { margelo::nitro::backgroundtimer::initialize(vm); });
  }

The host handle type (JavaVM*) is kept abstract as a type parameter H; the
reserved second parameter (unnamed in the source) is a value of an arbitrary
type R.  Observable side effects are recorded as an event trace.
-/

namespace NitroBgTimer

/-- Observable events emitted during library load.  `registerModule h` records
one invocation of the module registration routine
(margelo::nitro::backgroundtimer::initialize) with host handle `h`. -/
inductive Event (H : Type) where
  | registerModule (h : H)
deriving DecidableEq

/-- Rename the host handle inside an event. -/
def Event.mapHandle {H H' : Type} (f : H → H') : Event H → Event H'
  | .registerModule h => .registerModule (f h)

/-- Whether an event is an invocation of the module registration routine. -/
def Event.isRegisterModule {H : Type} : Event H → Bool
  | .registerModule _ => true

/-- Shape of the binding-layer collaborator facebook::jni::initialize: it
receives the host handle and a zero-argument callback (whose run yields the
events it emitted) and produces a status code together with the events emitted
during initialization. -/
def BindingLayer (H : Type) : Type :=
  H → (Unit → List (Event H)) → Int × List (Event H)

/-- The callback built at cpp-adapter.cpp lines 8-9, generalised over the
module registration routine `reg` so that the value `reg` returns is explicit:
a zero-argument closure capturing `vm`, invoking the registration routine on
`vm` as an expression statement, and discarding its value. -/
def onLoadCallbackWith {H ρ : Type} (reg : H → ρ) (vm : H) : Unit → List (Event H) :=
  fun _ =>
    let _ := reg vm
    [Event.registerModule vm]

/-- The callback actually built at cpp-adapter.cpp lines 8-9:
`[=] \x7b margelo::nitro::backgroundtimer::initialize(vm); \x7d` — a
zero-argument closure over `vm` that invokes the registration routine once on
`vm` and produces nothing else. -/
def onLoadCallback {H : Type} (vm : H) : Unit → List (Event H) :=
  fun _ => [Event.registerModule vm]

/-- Shallow embedding of JNI_OnLoad (cpp-adapter.cpp lines 6-10): it returns
the binding layer's result on `vm` and the callback, verbatim.  The second
(reserved) parameter is unnamed and unused in the source. -/
def JNI_OnLoad {H R : Type} (bindingInit : BindingLayer H) (vm : H) (_reserved : R) :
    Int × List (Event H) :=
  bindingInit vm (onLoadCallback vm)

/-- JNI_OnLoad with the module registration routine's returned value made
explicit via `reg`, exactly as in `onLoadCallbackWith`. -/
def JNI_OnLoadWith {H R ρ : Type} (bindingInit : BindingLayer H) (reg : H → ρ)
    (vm : H) (_reserved : R) : Int × List (Event H) :=
  bindingInit vm (onLoadCallbackWith reg vm)

/-- Modelled from the spec: the recognized fixed version-status code that the
binding layer returns on success ("A recognized fixed version value is
returned on success"); for JNI this is JNI_VERSION_1_6 = 0x00010006. -/
def JNI_VERSION_1_6 : Int := 65542

/-- Outcome of the binding layer's own initialization: success, or failure
with some failure status code. -/
inductive InitOutcome where
  | success
  | failure (code : Int)
deriving DecidableEq

/-- Modelled from the spec: the binding-layer collaborator
facebook::jni::initialize (fbjni, external to this repository; spec section 6:
"exposes an initialize(HostHandle, InitCallback) → VersionStatusCode
capability").  On success it runs the supplied callback and returns the fixed
version code; on failure it returns the failure code and never runs the
callback. -/
def fbjniInit {H : Type} (outcome : InitOutcome) : BindingLayer H :=
  fun _vm callback =>
    match outcome with
    | .success => (JNI_VERSION_1_6, callback ())
    | .failure c => (c, [])

/-- Static-initialization effects of the translation unit cpp-adapter.cpp: the
file declares only the function JNI_OnLoad and no namespace-scope objects, so
loading the translation unit emits no events before the entry point is
called. -/
def staticInitEvents (H : Type) : List (Event H) := []

/-- The two callback views agree: discarding the registration routine's value
leaves exactly the one registration event. -/
theorem onLoadCallbackWith_eq {H ρ : Type} (reg : H → ρ) (vm : H) :
    onLoadCallbackWith reg vm = onLoadCallback vm := rfl

/-- C1: For every invocation of JNI_OnLoad, its result (status code and
effects) is exactly the value returned by the binding layer's initialize call
on the host handle and the registration callback: the component neither
inspects, wraps, nor translates the result. -/
theorem JNI_OnLoad_delegates_verbatim {H R : Type}
    (bindingInit : BindingLayer H) (vm : H) (reserved : R) :
    JNI_OnLoad bindingInit vm reserved = bindingInit vm (onLoadCallback vm) := rfl

/-- C2: For every call of the entry point with a host handle in which the
binding layer's initialization succeeds, JNI_OnLoad returns the recognized
fixed version-status code. -/
theorem JNI_OnLoad_success_returns_fixed_version {H R : Type} (vm : H) (reserved : R) :
    (JNI_OnLoad (fbjniInit InitOutcome.success) vm reserved).1 = JNI_VERSION_1_6 := rfl

/-- C3: For every successful call of the entry point, the module registration
routine has been invoked exactly once: the event trace contains exactly one
registration event. -/
theorem JNI_OnLoad_success_registers_exactly_once {H R : Type} (vm : H) (reserved : R) :
    ((JNI_OnLoad (fbjniInit InitOutcome.success) vm reserved).2.countP
      Event.isRegisterModule) = 1 := rfl

/-- C4: For every call of the entry point in which the binding layer's
initialization fails with code `c`, the entry point returns that failure code
and the module registration routine is never invoked (the trace holds no
registration event). -/
theorem JNI_OnLoad_failure_propagates_and_skips_registration {H R : Type}
    (c : Int) (vm : H) (reserved : R) :
    (JNI_OnLoad (fbjniInit (InitOutcome.failure c)) vm reserved).1 = c ∧
    ((JNI_OnLoad (fbjniInit (InitOutcome.failure c)) vm reserved).2.countP
      Event.isRegisterModule) = 0 :=
  ⟨rfl, rfl⟩

/-- C5: For every host handle H whose binding-layer initialization succeeds,
the registration routine is called with that exact same handle as its
argument, and the fixed success version code is returned: the full result is
the fixed version code together with the single event registerModule(vm). -/
theorem JNI_OnLoad_success_registers_same_handle {H R : Type} (vm : H) (reserved : R) :
    JNI_OnLoad (fbjniInit InitOutcome.success) vm reserved =
      (JNI_VERSION_1_6, [Event.registerModule vm]) := rfl

/-- C6: The reserved parameter is unused: for every binding layer, host handle
and any two reserved values r1, r2 (even of different types), the entry point
returns the same status code and performs the same calls. -/
theorem JNI_OnLoad_independent_of_reserved {H R₁ R₂ : Type}
    (bindingInit : BindingLayer H) (vm : H) (r₁ : R₁) (r₂ : R₂) :
    JNI_OnLoad bindingInit vm r₁ = JNI_OnLoad bindingInit vm r₂ := rfl

/-- C7: The translation unit performs no action before the entry point is
called (its static initialization emits no events), and when called the entry
point's only action is the single call to the binding layer's initialize with
the registration callback — it introduces and mutates no state of its own. -/
theorem JNI_OnLoad_no_static_effects_single_call {H R : Type}
    (bindingInit : BindingLayer H) (vm : H) (reserved : R) :
    staticInitEvents H = [] ∧
    JNI_OnLoad bindingInit vm reserved = bindingInit vm (onLoadCallback vm) :=
  ⟨rfl, rfl⟩

/-- C8: The component never interprets the host handle: it is passed through
unchanged to the binding layer and to the registration callback, so the
behaviour is natural under any renaming f of handles — the callback on a
renamed handle is the renamed callback, and JNI_OnLoad hands the renamed
handle verbatim to the binding layer. -/
theorem JNI_OnLoad_handle_passthrough {H H' R : Type} (f : H → H')
    (bindingInit : BindingLayer H') (vm : H) (reserved : R) :
    JNI_OnLoad bindingInit (f vm) reserved =
      bindingInit (f vm) (onLoadCallback (f vm)) ∧
    onLoadCallback (f vm) = fun u => (onLoadCallback vm u).map (Event.mapHandle f) :=
  ⟨rfl, rfl⟩

/-- C10: The callback is a zero-argument closure over the host handle that
discards any value produced by the registration routine, so the registration
routine's returned value can never influence the result of JNI_OnLoad: two
registration routines returning arbitrary different values (even of different
types) yield identical results. -/
theorem JNI_OnLoad_ignores_registration_value {H R ρ₁ ρ₂ : Type}
    (bindingInit : BindingLayer H) (reg₁ : H → ρ₁) (reg₂ : H → ρ₂)
    (vm : H) (reserved : R) :
    JNI_OnLoadWith bindingInit reg₁ vm reserved =
      JNI_OnLoadWith bindingInit reg₂ vm reserved := rfl

end NitroBgTimer
